import Mathlib

/-!
Verification of the smart alerting pipeline of the cicd-anomaly-detection
repository (`src/api/smart_alerting.py`, with its notifier
`src/api/alerting.py`).

The Python classes are embedded shallowly: wall-clock reads (`time.time()`,
`datetime.now()`) become an explicit `now : ℚ` argument, the mutable
`SmartAlertManager` object becomes an explicit `SmartState` value threaded
through the operations, Python dicts become association lists with
first-match lookup and in-place overwrite, and the outbound transports
(HTTP POST to Slack, SMTP, generic webhook) become a boolean oracle
`transport : String → Bool` giving the success of each attempted channel
send (a raised-and-caught transport exception counts as `false`, which is
exactly how `alerting.py` converts it).  The `hashlib.md5` call used by
`_fingerprint` is embedded as a full executable MD5 over the UTF-8 bytes
of the string.
-/

/-! ## MD5 (RFC 1321), executable over `Nat` with explicit `% 2^32` -/

/-- Truncate to 32 bits, the word size of the MD5 state registers. -/
def m32 (n : Nat) : Nat := n % 4294967296

/-- Bitwise complement of a 32-bit value (valid for `x < 2^32`). -/
def mnot (x : Nat) : Nat := 4294967295 - x

/-- Left-rotate a 32-bit value by `k` bits (valid for `x < 2^32`, `k ≤ 32`). -/
def rotl32 (x k : Nat) : Nat := (x % 2 ^ (32 - k)) * 2 ^ k + x / 2 ^ (32 - k)

/-- The 64 MD5 sine-derived round constants `K[i]`. -/
def md5K : List Nat :=
  [0xd76aa478, 0xe8c7b756, 0x242070db, 0xc1bdceee,
   0xf57c0faf, 0x4787c62a, 0xa8304613, 0xfd469501,
   0x698098d8, 0x8b44f7af, 0xffff5bb1, 0x895cd7be,
   0x6b901122, 0xfd987193, 0xa679438e, 0x49b40821,
   0xf61e2562, 0xc040b340, 0x265e5a51, 0xe9b6c7aa,
   0xd62f105d, 0x02441453, 0xd8a1e681, 0xe7d3fbc8,
   0x21e1cde6, 0xc33707d6, 0xf4d50d87, 0x455a14ed,
   0xa9e3e905, 0xfcefa3f8, 0x676f02d9, 0x8d2a4c8a,
   0xfffa3942, 0x8771f681, 0x6d9d6122, 0xfde5380c,
   0xa4beea44, 0x4bdecfa9, 0xf6bb4b60, 0xbebfbc70,
   0x289b7ec6, 0xeaa127fa, 0xd4ef3085, 0x04881d05,
   0xd9d4d039, 0xe6db99e5, 0x1fa27cf8, 0xc4ac5665,
   0xf4292244, 0x432aff97, 0xab9423a7, 0xfc93a039,
   0x655b59c3, 0x8f0ccc92, 0xffeff47d, 0x85845dd1,
   0x6fa87e4f, 0xfe2ce6e0, 0xa3014314, 0x4e0811a1,
   0xf7537e82, 0xbd3af235, 0x2ad7d2bb, 0xeb86d391]

/-- The 64 MD5 per-round left-rotation amounts `s[i]`. -/
def md5S : List Nat :=
  [7, 12, 17, 22, 7, 12, 17, 22, 7, 12, 17, 22, 7, 12, 17, 22,
   5, 9, 14, 20, 5, 9, 14, 20, 5, 9, 14, 20, 5, 9, 14, 20,
   4, 11, 16, 23, 4, 11, 16, 23, 4, 11, 16, 23, 4, 11, 16, 23,
   6, 10, 15, 21, 6, 10, 15, 21, 6, 10, 15, 21, 6, 10, 15, 21]

/-- The MD5 round function: F, G, H, I depending on the round index. -/
def md5F (i b c d : Nat) : Nat :=
  if i < 16 then (b &&& c) ||| (mnot b &&& d)
  else if i < 32 then (d &&& b) ||| (mnot d &&& c)
  else if i < 48 then b ^^^ c ^^^ d
  else c ^^^ (b ||| mnot d)

/-- The MD5 message-word index `g` for round `i`. -/
def md5G (i : Nat) : Nat :=
  if i < 16 then i
  else if i < 32 then (5 * i + 1) % 16
  else if i < 48 then (3 * i + 5) % 16
  else (7 * i) % 16

/-- One of the 64 MD5 rounds, acting on the `(A, B, C, D)` register tuple. -/
def md5Step (M : Nat → Nat) (st : Nat × Nat × Nat × Nat) (i : Nat) :
    Nat × Nat × Nat × Nat :=
  let f := m32 (md5F i st.2.1 st.2.2.1 st.2.2.2 + st.1 + md5K.getD i 0 + M (md5G i))
  (st.2.2.2, m32 (st.2.1 + rotl32 f (md5S.getD i 0)), st.2.1, st.2.2.1)

/-- Process one 64-byte block (given as a list of byte values). -/
def md5Block (st : Nat × Nat × Nat × Nat) (blk : List Nat) :
    Nat × Nat × Nat × Nat :=
  let M := fun g => blk.getD (4 * g) 0 + 256 * blk.getD (4 * g + 1) 0 +
    65536 * blk.getD (4 * g + 2) 0 + 16777216 * blk.getD (4 * g + 3) 0
  let r := (List.range 64).foldl (md5Step M) st
  (m32 (st.1 + r.1), m32 (st.2.1 + r.2.1),
   m32 (st.2.2.1 + r.2.2.1), m32 (st.2.2.2 + r.2.2.2))

/-- `count` little-endian bytes of `n`. -/
def leBytes (n count : Nat) : List Nat :=
  (List.range count).map (fun i => n / 256 ^ i % 256)

/-- MD5 padding: a `0x80` byte, zeros to 56 mod 64, then the 64-bit
little-endian bit length. -/
def md5Pad (msg : List Nat) : List Nat :=
  let len := msg.length
  let z := (64 + 56 - (len + 1) % 64) % 64
  msg ++ [128] ++ List.replicate z 0 ++
    leBytes (len * 8 % 18446744073709551616) 8

/-- Split a byte list into 64-byte chunks (structural recursion on a fuel
bound by the list length, so the kernel can evaluate it). -/
def chunks64Go : Nat → List Nat → List (List Nat)
  | 0, _ => []
  | _, [] => []
  | fuel + 1, a :: rest => ((a :: rest).take 64) :: chunks64Go fuel (rest.drop 63)

/-- Split a byte list into 64-byte chunks. -/
def chunks64 (l : List Nat) : List (List Nat) := chunks64Go l.length l

/-- The 16-byte MD5 digest of a byte list. -/
def md5Digest (msg : List Nat) : List Nat :=
  let st := (chunks64 (md5Pad msg)).foldl md5Block
    (1732584193, 4023233417, 2562383102, 271733878)
  leBytes st.1 4 ++ leBytes st.2.1 4 ++ leBytes st.2.2.1 4 ++ leBytes st.2.2.2 4

/-- Lowercase hex digit for a value below 16. -/
def hexDigit (n : Nat) : Char :=
  if n < 10 then Char.ofNat (48 + n) else Char.ofNat (87 + n)

/-- Two lowercase hex digits of a byte. -/
def byteToHex (b : Nat) : String :=
  String.mk [hexDigit (b / 16), hexDigit (b % 16)]

/-- The lowercase hex MD5 digest of a byte list, as `hashlib.md5(..).hexdigest()`
produces it. -/
def md5hex (msg : List Nat) : String :=
  String.join ((md5Digest msg).map byteToHex)

/-- UTF-8 encoding of one character, as a list of byte values. -/
def utf8Bytes (c : Char) : List Nat :=
  let n := c.toNat
  if n < 128 then [n]
  else if n < 2048 then [192 + n / 64, 128 + n % 64]
  else if n < 65536 then [224 + n / 4096, 128 + n / 64 % 64, 128 + n % 64]
  else [240 + n / 262144, 128 + n / 4096 % 64, 128 + n / 64 % 64, 128 + n % 64]

/-- UTF-8 bytes of a string, as Python's `str.encode()` produces them. -/
def strBytes (s : String) : List Nat :=
  (s.data.map utf8Bytes).flatten

/-! ## Small Python-semantics helpers -/

/-- Python `str.lower()` (restricted, as Lean's `Char.toLower`, to the
ASCII letters — the only case folding the repository's job names use). -/
def pyLower (s : String) : String := String.mk (s.data.map Char.toLower)

/-- Python's substring test `needle in hay`, on character lists. -/
def substrMem : List Char → List Char → Bool
  | n, [] => n.isEmpty
  | n, c :: cs => n.isPrefixOf (c :: cs) || substrMem n cs

/-- Python `dict.get`: the value stored under `k`, if any (keys are unique,
so first match is the match). -/
def dictGet (d : List (String × ℚ)) (k : String) : Option ℚ :=
  (d.find? (fun kv => kv.1 = k)).map (fun kv => kv.2)

/-- Python `dict[k] = v`: overwrite in place if the key exists, else append
(insertion order preserved, as Python dicts do). -/
def dictSet (d : List (String × ℚ)) (k : String) (v : ℚ) : List (String × ℚ) :=
  if d.any (fun kv => kv.1 = k) then
    d.map (fun kv => if kv.1 = k then (k, v) else kv)
  else d ++ [(k, v)]

/-- `dict.get` for the string-valued config dict of `AlertManager`. -/
def dictGetStr (d : List (String × String)) (k : String) : Option String :=
  (d.find? (fun kv => kv.1 = k)).map (fun kv => kv.2)

/-- `dict[k] = v` for the string-valued config dict of `AlertManager`. -/
def dictSetStr (d : List (String × String)) (k : String) (v : String) :
    List (String × String) :=
  if d.any (fun kv => kv.1 = k) then
    d.map (fun kv => if kv.1 = k then (k, v) else kv)
  else d ++ [(k, v)]

/-! ## Data model (`smart_alerting.py` data classes and the anomaly dict) -/

/-- One entry of the `anomaly_features` list of an anomaly dict. -/
structure AnomalyFeature where
  feature : String
  value : ℚ
  expected : ℚ
  z_score : ℚ
deriving DecidableEq, Repr

/-- The anomaly dict consumed by `SmartAlertManager.send_alert`: the keys
the pipeline reads, with `Option` for keys that may be absent.
`job_name`/`workflow_name` live under the nested `data` dict in the source. -/
structure Anomaly where
  severity : Option String
  max_z_score : Option ℚ
  job_name : Option String
  workflow_name : Option String
  anomaly_features : List AnomalyFeature
deriving DecidableEq, Repr

/-- `MaintenanceWindow` data class. `start`/`end` timestamps are rationals
on the same clock as `now`. -/
structure MaintenanceWindow where
  name : String
  start : ℚ
  «end» : ℚ
  affected_jobs : Option (List String)
deriving DecidableEq, Repr

/-- `AlertRule` data class (after `__init__`, so `channels` already has the
`channels or ['slack']` default applied). -/
structure AlertRule where
  name : String
  job_pattern : Option String
  min_severity : String
  channels : List String
  team_name : Option String
  slack_webhook : Option String
deriving DecidableEq, Repr

/-- The wrapped `AlertManager` of `alerting.py`, reduced to its config dict
(all the behavior the pipeline observes is derived from the config). -/
structure AlertManager where
  config : List (String × String)
deriving DecidableEq, Repr

/-- The `stats` counter dict of `SmartAlertManager`. -/
structure Stats where
  total_received : Nat
  total_sent : Nat
  suppressed_duplicate : Nat
  suppressed_maintenance : Nat
  suppressed_rate_limit : Nat
  suppressed_severity : Nat
  batched : Nat
deriving DecidableEq, Repr

/-- The mutable fields of a `SmartAlertManager` instance, plus its frozen
configuration. -/
structure SmartState where
  alert_manager : AlertManager
  batch_window_seconds : ℚ
  dedup_window_seconds : ℚ
  max_alerts_per_hour : Nat
  pending_batch : List Anomaly
  batch_start_time : Option ℚ
  sent_fingerprints : List (String × ℚ)
  alert_timestamps : List ℚ
  rules : List AlertRule
  maintenance_windows : List MaintenanceWindow
  stats : Stats
deriving DecidableEq, Repr

/-- The outcome dict returned by `SmartAlertManager.send_alert`. -/
structure Outcome where
  sent : Bool
  reason : Option String
  job_name : String
  severity : String
deriving DecidableEq, Repr

/-- A call made to the wrapped notifier during a flush: either
`manager.send_alert(event, channels=...)` or `manager.send_batch_alert(batch)`. -/
inductive NotifierCall where
  | sendOne (manager : AlertManager) (a : Anomaly) (channels : List String)
  | sendBatch (manager : AlertManager) (batch : List Anomaly)
deriving DecidableEq, Repr

/-! ## Notifier (`alerting.py`), with transports as a boolean oracle -/

/-- `self.slack_webhook = self.config.get('slack_webhook_url', '')`. -/
def AlertManager.slack_webhook (m : AlertManager) : String :=
  (dictGetStr m.config "slack_webhook_url").getD ""

/-- `AlertManager.send_slack_alert`: warns and returns `False` when no
webhook is configured; otherwise the HTTP POST outcome (an exception is
caught and yields `False`), which the oracle reports. -/
def AlertManager.send_slack_alert (m : AlertManager)
    (transport : String → Bool) : Bool :=
  if m.slack_webhook = "" then false else transport "slack"

/-- `AlertManager.send_email_alert`: returns `False` unless
`smtp_user`, `smtp_password` and `alert_email` are all configured
(`all([...])` over truthiness); otherwise the SMTP outcome. -/
def AlertManager.send_email_alert (m : AlertManager)
    (transport : String → Bool) : Bool :=
  if (dictGetStr m.config "smtp_user").getD "" = "" ||
     (dictGetStr m.config "smtp_password").getD "" = "" ||
     (dictGetStr m.config "alert_email").getD "" = "" then false
  else transport "email"

/-- `AlertManager.send_webhook_alert`: `False` on a falsy URL, otherwise the
HTTP POST outcome. -/
def AlertManager.send_webhook_alert (_m : AlertManager) (url : String)
    (transport : String → Bool) : Bool :=
  if url = "" then false else transport "webhook"

/-- `AlertManager.send_alert`: attempts each requested channel and returns
the per-channel result dict (`channels` defaults to `['slack','email']`;
the webhook channel is attempted only when the config carries a truthy
`webhook_url`). -/
def AlertManager.send_alert (m : AlertManager)
    (channelsOpt : Option (List String)) (transport : String → Bool) :
    List (String × Bool) :=
  let channels := channelsOpt.getD ["slack", "email"]
  (if channels.contains "slack" then [("slack", m.send_slack_alert transport)] else []) ++
  (if channels.contains "email" then [("email", m.send_email_alert transport)] else []) ++
  (if channels.contains "webhook" && (dictGetStr m.config "webhook_url").getD "" != "" then
    [("webhook", m.send_webhook_alert ((dictGetStr m.config "webhook_url").getD "") transport)]
  else [])

/-- `AlertManager.send_batch_alert`: `False` on an empty list or when no
Slack webhook is configured; otherwise the Slack POST outcome for the
summary message. -/
def AlertManager.send_batch_alert (m : AlertManager) (batch : List Anomaly)
    (transport : String → Bool) : Bool :=
  if batch.isEmpty then false
  else if m.slack_webhook = "" then false
  else transport "slack"

/-! ## `MaintenanceWindow` / `AlertRule` methods -/

/-- `MaintenanceWindow.is_active`: `start <= now <= end`. -/
def MaintenanceWindow.is_active (w : MaintenanceWindow) (now : ℚ) : Bool :=
  decide (w.start ≤ now ∧ now ≤ w.«end»)

/-- `MaintenanceWindow.affects_job`: `None` affects every job, otherwise
membership in the affected list. -/
def MaintenanceWindow.affects_job (w : MaintenanceWindow) (job : String) : Bool :=
  match w.affected_jobs with
  | none => true
  | some l => l.contains job

/-- `AlertRule.SEVERITY_RANK.get(s, 0)`: the class-level rank dict with
default 0 for unknown severities. -/
def SEVERITY_RANK (s : String) : Nat :=
  if s = "low" then 0
  else if s = "medium" then 1
  else if s = "high" then 2
  else if s = "critical" then 3
  else 0

/-- `AlertRule.matches_job`: a `None` pattern matches every job, otherwise
case-insensitive substring match. -/
def AlertRule.matches_job (r : AlertRule) (job : String) : Bool :=
  match r.job_pattern with
  | none => true
  | some p => substrMem (pyLower p).data (pyLower job).data

/-- `AlertRule.severity_passes`: the event's rank must reach the rule's
minimum rank, both looked up case-insensitively with default 0. -/
def AlertRule.severity_passes (r : AlertRule) (sev : String) : Bool :=
  decide (SEVERITY_RANK (pyLower r.min_severity) ≤ SEVERITY_RANK (pyLower sev))

/-! ## `SmartAlertManager` private helpers -/

/-- `SmartAlertManager._extract_job_name`:
`data.get('job_name') or data.get('workflow_name', 'unknown')` —
a missing or empty (falsy) `job_name` falls back to `workflow_name`,
which itself defaults to `'unknown'` only when the key is absent. -/
def _extract_job_name (a : Anomaly) : String :=
  let wf := match a.workflow_name with
    | some s => s
    | none => "unknown"
  match a.job_name with
  | some s => if s = "" then wf else s
  | none => wf

/-- `SmartAlertManager._extract_severity`: an explicit `severity` key wins;
otherwise the `max_z_score` ladder (default score 0):
`> 5` critical, `> 4` high, `> 2.5` medium, else low. -/
def _extract_severity (a : Anomaly) : String :=
  match a.severity with
  | some sev => sev
  | none =>
    let z := a.max_z_score.getD 0
    if 5 < z then "critical"
    else if 4 < z then "high"
    else if 5 / 2 < z then "medium"
    else "low"

/-- The anomalous feature names of an event, in list order. -/
def featureNames (a : Anomaly) : List String :=
  a.anomaly_features.map (fun f => f.feature)

/-- `SmartAlertManager._fingerprint`: MD5 hex digest of
`f"{job}|{'|'.join(sorted(feature names))}"` (sorted, not de-duplicated). -/
def _fingerprint (a : Anomaly) : String :=
  let job := _extract_job_name a
  let features := List.insertionSort (· ≤ ·) (featureNames a)
  md5hex (strBytes (job ++ "|" ++ String.intercalate "|" features))

/-- `SmartAlertManager._is_duplicate`: a stored record for the fingerprint
whose age is strictly below the dedup window. -/
def _is_duplicate (s : SmartState) (fp : String) (now : ℚ) : Bool :=
  match dictGet s.sent_fingerprints fp with
  | none => false
  | some last => decide (now - last < s.dedup_window_seconds)

/-- `SmartAlertManager._record_sent`: store `now` under the fingerprint,
then prune every entry whose time is not strictly above the cutoff. -/
def _record_sent (s : SmartState) (fp : String) (now : ℚ) : SmartState :=
  let d := dictSet s.sent_fingerprints fp now
  { s with sent_fingerprints :=
      d.filter (fun kv => decide (now - s.dedup_window_seconds < kv.2)) }

/-- `SmartAlertManager._is_rate_limited`: prune the timestamp list to the
trailing hour (a mutation), then compare its length to the hourly maximum. -/
def _is_rate_limited (s : SmartState) (now : ℚ) : SmartState × Bool :=
  let ts := s.alert_timestamps.filter (fun t => decide (now - t < 3600))
  ({ s with alert_timestamps := ts }, decide (s.max_alerts_per_hour ≤ ts.length))

/-- `SmartAlertManager._count_alerts_last_hour`. -/
def _count_alerts_last_hour (s : SmartState) (now : ℚ) : Nat :=
  (s.alert_timestamps.filter (fun t => decide (now - t < 3600))).length

/-- `SmartAlertManager._in_maintenance`: any active window that affects the
job suffices. -/
def _in_maintenance (s : SmartState) (job : String) (now : ℚ) : Bool :=
  s.maintenance_windows.any (fun w => w.is_active now && w.affects_job job)

/-- `SmartAlertManager._resolve_rule`: first rule, in insertion order, whose
pattern matches the job. -/
def _resolve_rule (s : SmartState) (job : String) : Option AlertRule :=
  s.rules.find? (fun r => r.matches_job job)

/-- `SmartAlertManager._get_effective_manager`: a fresh manager with the
rule's webhook override when the rule carries a truthy `slack_webhook`,
otherwise the shared base manager (never mutated). -/
def _get_effective_manager (s : SmartState) (rule : Option AlertRule) :
    AlertManager :=
  match rule with
  | some r =>
    match r.slack_webhook with
    | some w =>
      if w = "" then s.alert_manager
      else { config := dictSetStr s.alert_manager.config "slack_webhook_url" w }
    | none => s.alert_manager
  | none => s.alert_manager

/-- `SmartAlertManager._add_to_batch`: open the batch at `now` if it has no
open timestamp, append the event, bump the `batched` counter. -/
def _add_to_batch (s : SmartState) (a : Anomaly) (now : ℚ) : SmartState :=
  { s with
    batch_start_time := match s.batch_start_time with
      | none => some now
      | some t => some t,
    pending_batch := s.pending_batch ++ [a],
    stats := { s.stats with batched := s.stats.batched + 1 } }

/-- `SmartAlertManager._should_flush_batch`: false on an empty batch or a
missing open timestamp, else whether the batch window has elapsed. -/
def _should_flush_batch (s : SmartState) (now : ℚ) : Bool :=
  match s.pending_batch, s.batch_start_time with
  | [], _ => false
  | _ :: _, none => false
  | _ :: _, some t => decide (s.batch_window_seconds ≤ now - t)

/-- `SmartAlertManager._flush_batch`: empty batch is a trivial success;
otherwise snapshot and clear the batch, append one rate-limit timestamp,
bump `total_sent`, then deliver — one event via `manager.send_alert`
(result truthiness is the non-emptiness of its per-channel dict), several
via `manager.send_batch_alert`.  Returns (result, new state, notifier calls). -/
def _flush_batch (s : SmartState) (manager : AlertManager)
    (channels : List String) (now : ℚ) (transport : String → Bool) :
    Bool × SmartState × List NotifierCall :=
  match s.pending_batch with
  | [] => (true, s, [])
  | a :: rest =>
    let batch := s.pending_batch
    let s' := { s with
      pending_batch := [],
      batch_start_time := none,
      alert_timestamps := s.alert_timestamps ++ [now],
      stats := { s.stats with total_sent := s.stats.total_sent + 1 } }
    if rest.isEmpty then
      (!(manager.send_alert (some channels) transport).isEmpty, s',
       [NotifierCall.sendOne manager a channels])
    else
      (manager.send_batch_alert batch transport, s',
       [NotifierCall.sendBatch manager batch])

/-! ## `SmartAlertManager` public operations -/

/-- Steps 9–10 of `SmartAlertManager.send_alert` (shared by the `force` and
non-`force` paths): queue the event into the batch, then flush if the batch
window has elapsed, producing the outcome dict. -/
def _queue_and_maybe_flush (s : SmartState) (a : Anomaly)
    (effective_manager : AlertManager) (channels : List String)
    (job_name severity : String) (now : ℚ) (transport : String → Bool) :
    Outcome × SmartState × List NotifierCall :=
  let s := _add_to_batch s a now
  if _should_flush_batch s now then
    let r := _flush_batch s effective_manager channels now transport
    ({ sent := r.1, reason := some "batch_flushed",
       job_name := job_name, severity := severity }, r.2.1, r.2.2)
  else
    ({ sent := false, reason := some "queued_in_batch",
       job_name := job_name, severity := severity }, s, [])

/-- The `self.stats['total_received'] += 1` opening line of
`SmartAlertManager.send_alert`. -/
def _bump_received (s : SmartState) : SmartState :=
  { s with stats :=
    { s.stats with total_received := s.stats.total_received + 1 } }

/-- `SmartAlertManager.send_alert` (the `submit` operation): bump
`total_received`, then — unless `force` — run the maintenance, dedup,
rate-limit and (after rule resolution) severity gates in order, the first
failing gate returning a suppressed outcome; an admitted event has its
fingerprint recorded and is queued into the batch, which is flushed when the
batch window has elapsed.  `force` skips all suppression, uses the base
manager, and defaults channels to `['slack','email']`.
(`_save_state` is best-effort persistence with no in-memory effect and is
omitted.) -/
def send_alert (s : SmartState) (a : Anomaly)
    (channelsOpt : Option (List String)) (force : Bool) (now : ℚ)
    (transport : String → Bool) : Outcome × SmartState × List NotifierCall :=
  let s := _bump_received s
  let job_name := _extract_job_name a
  let severity := _extract_severity a
  match force with
  | true =>
    let channels := channelsOpt.getD ["slack", "email"]
    _queue_and_maybe_flush s a s.alert_manager channels job_name severity now transport
  | false =>
    match _in_maintenance s job_name now with
    | true =>
      ({ sent := false, reason := some "maintenance_window",
         job_name := job_name, severity := severity },
       { s with stats := { s.stats with
           suppressed_maintenance := s.stats.suppressed_maintenance + 1 } }, [])
    | false =>
      let fp := _fingerprint a
      match _is_duplicate s fp now with
      | true =>
        ({ sent := false, reason := some "duplicate",
           job_name := job_name, severity := severity },
         { s with stats := { s.stats with
             suppressed_duplicate := s.stats.suppressed_duplicate + 1 } }, [])
      | false =>
        let rl := _is_rate_limited s now
        let s := rl.1
        match rl.2 with
        | true =>
          ({ sent := false, reason := some "rate_limit",
             job_name := job_name, severity := severity },
           { s with stats := { s.stats with
               suppressed_rate_limit := s.stats.suppressed_rate_limit + 1 } }, [])
        | false =>
          let rule := _resolve_rule s job_name
          match (match rule with
                 | some r => !(r.severity_passes severity)
                 | none => false) with
          | true =>
            ({ sent := false, reason := some "below_severity_threshold",
               job_name := job_name, severity := severity },
             { s with stats := { s.stats with
                 suppressed_severity := s.stats.suppressed_severity + 1 } }, [])
          | false =>
            let channels := match channelsOpt with
              | some c => c
              | none => match rule with
                | some r => r.channels
                | none => ["slack"]
            let effective_manager := _get_effective_manager s rule
            let s := _record_sent s fp now
            _queue_and_maybe_flush s a effective_manager channels
              job_name severity now transport

/-- `SmartAlertManager.flush_now` (the `flushNow` operation): trivial
success on an empty batch; otherwise resolve rule, manager and channels from
the first pending event and flush. -/
def flush_now (s : SmartState) (channelsOpt : Option (List String)) (now : ℚ)
    (transport : String → Bool) : Bool × SmartState × List NotifierCall :=
  match s.pending_batch with
  | [] => (true, s, [])
  | a :: _ =>
    let rule := _resolve_rule s (_extract_job_name a)
    let effective_manager := _get_effective_manager s rule
    let channels := match channelsOpt with
      | some c => c
      | none => match rule with
        | some r => r.channels
        | none => ["slack"]
    _flush_batch s effective_manager channels now transport

/-- `SmartAlertManager.add_rule`. -/
def add_rule (s : SmartState) (r : AlertRule) : SmartState :=
  { s with rules := s.rules ++ [r] }

/-- `SmartAlertManager.remove_rule`. -/
def remove_rule (s : SmartState) (name : String) : SmartState :=
  { s with rules := s.rules.filter (fun r => r.name ≠ name) }

/-- `SmartAlertManager.add_maintenance_window`. -/
def add_maintenance_window (s : SmartState) (w : MaintenanceWindow) : SmartState :=
  { s with maintenance_windows := s.maintenance_windows ++ [w] }

/-- `SmartAlertManager.remove_maintenance_window`. -/
def remove_maintenance_window (s : SmartState) (name : String) : SmartState :=
  { s with maintenance_windows :=
      s.maintenance_windows.filter (fun w => w.name ≠ name) }

/-- `SmartAlertManager.list_active_windows`, reduced to the windows it
reports (the summary dict projection is irrelevant to the claims). -/
def list_active_windows (s : SmartState) (now : ℚ) : List MaintenanceWindow :=
  s.maintenance_windows.filter (fun w => w.is_active now)

/-- The dict returned by `SmartAlertManager.get_stats`. -/
structure StatsReport where
  total_received : Nat
  total_sent : Nat
  suppressed_duplicate : Nat
  suppressed_maintenance : Nat
  suppressed_rate_limit : Nat
  suppressed_severity : Nat
  batched : Nat
  total_suppressed : Nat
  suppression_rate : ℚ
  pending_in_batch : Nat
  active_maintenance_windows : Nat
  registered_rules : Nat
  alerts_last_hour : Nat
deriving DecidableEq, Repr

/-- `SmartAlertManager.get_stats`: the counters plus derived fields;
`suppression_rate = suppressed / max(total_received, 1)`. -/
def get_stats (s : SmartState) (now : ℚ) : StatsReport :=
  let suppressed := s.stats.suppressed_duplicate + s.stats.suppressed_maintenance +
    s.stats.suppressed_rate_limit + s.stats.suppressed_severity
  { total_received := s.stats.total_received
    total_sent := s.stats.total_sent
    suppressed_duplicate := s.stats.suppressed_duplicate
    suppressed_maintenance := s.stats.suppressed_maintenance
    suppressed_rate_limit := s.stats.suppressed_rate_limit
    suppressed_severity := s.stats.suppressed_severity
    batched := s.stats.batched
    total_suppressed := suppressed
    suppression_rate := (suppressed : ℚ) / ((max s.stats.total_received 1 : Nat) : ℚ)
    pending_in_batch := s.pending_batch.length
    active_maintenance_windows := (list_active_windows s now).length
    registered_rules := s.rules.length
    alerts_last_hour := _count_alerts_last_hour s now }

/-! ## Concrete fixtures used by witnesses and counterexamples -/

/-- A base notifier configured with a Slack webhook only. -/
def exManager : AlertManager := { config := [("slack_webhook_url", "hook-base")] }

/-- A freshly constructed pipeline state with the default configuration
(`batch_window_seconds=60`, `dedup_window_seconds=300`,
`max_alerts_per_hour=20`) and no persisted snapshot. -/
def exState : SmartState :=
  { alert_manager := exManager
    batch_window_seconds := 60
    dedup_window_seconds := 300
    max_alerts_per_hour := 20
    pending_batch := []
    batch_start_time := none
    sent_fingerprints := []
    alert_timestamps := []
    rules := []
    maintenance_windows := []
    stats := { total_received := 0, total_sent := 0, suppressed_duplicate := 0,
               suppressed_maintenance := 0, suppressed_rate_limit := 0,
               suppressed_severity := 0, batched := 0 } }

/-- A high-severity event for job `alpha-job` with one anomalous feature. -/
def evAlpha : Anomaly :=
  { severity := some "high", max_z_score := some (9 / 2),
    job_name := some "alpha-job", workflow_name := none,
    anomaly_features := [{ feature := "duration", value := 800, expected := 300,
                           z_score := 9 / 2 }] }

/-- A high-severity event for job `beta-job`. -/
def evBeta : Anomaly :=
  { severity := some "high", max_z_score := some (9 / 2),
    job_name := some "beta-job", workflow_name := none,
    anomaly_features := [{ feature := "failures", value := 15, expected := 2,
                           z_score := 19 / 5 }] }

/-- A rule routing `alpha` jobs to a team webhook. -/
def ruleAlpha : AlertRule :=
  { name := "alpha-team", job_pattern := some "alpha", min_severity := "low",
    channels := ["slack"], team_name := some "Alpha",
    slack_webhook := some "hook-alpha" }

/-- A rule routing `beta` jobs to a different team webhook and channel list. -/
def ruleBeta : AlertRule :=
  { name := "beta-team", job_pattern := some "beta", min_severity := "low",
    channels := ["slack", "email"], team_name := some "Beta",
    slack_webhook := some "hook-beta" }

/-- A maintenance window over `[0, 100]` affecting every job. -/
def exWindow : MaintenanceWindow :=
  { name := "mw", start := 0, «end» := 100, affected_jobs := none }

/-- `exState` with the all-jobs maintenance window registered. -/
def exStateMw : SmartState := { exState with maintenance_windows := [exWindow] }

/-- `exState` with the beta rule registered before the alpha rule. -/
def exStateRules : SmartState := { exState with rules := [ruleBeta, ruleAlpha] }

/-- `exState` with a zero-length batch window, so a flush happens on every
admission. -/
def exStateW0 : SmartState := { exState with batch_window_seconds := 0 }

/-- `exState` with a two-event pending batch opened at time 0. -/
def exStateP2 : SmartState :=
  { exState with pending_batch := [evAlpha, evBeta], batch_start_time := some 0 }

/-- `exState` with a one-event pending batch opened at time 0. -/
def exStateP1 : SmartState :=
  { exState with pending_batch := [evAlpha], batch_start_time := some 0 }

/-- `exState` with a zero hourly maximum, so the rate-limit gate always
fires. -/
def exStateRL : SmartState := { exState with max_alerts_per_hour := 0 }

/-- `exState` with a one-event (`alpha-job`) batch open since time 0 and
both team rules registered. -/
def exStateC8 : SmartState :=
  { exState with
    pending_batch := [evAlpha],
    batch_start_time := some 0,
    rules := [ruleAlpha, ruleBeta] }

/-- The manager a notifier call was made on. -/
def callManager : NotifierCall → AlertManager
  | NotifierCall.sendOne m _ _ => m
  | NotifierCall.sendBatch m _ => m

/-- An event for job `j` with one anomalous feature named `a`. -/
def evDupA : Anomaly :=
  { severity := some "high", max_z_score := none, job_name := some "j",
    workflow_name := none,
    anomaly_features := [{ feature := "a", value := 1, expected := 2, z_score := 3 }] }

/-- An event for job `j` whose feature list names `a` twice — the same
feature-name *set* as `evDupA`. -/
def evDupB : Anomaly :=
  { severity := some "high", max_z_score := none, job_name := some "j",
    workflow_name := none,
    anomaly_features :=
      [{ feature := "a", value := 9, expected := 9, z_score := 9 },
       { feature := "a", value := 1, expected := 2, z_score := 3 }] }

/-- An event whose feature names are `b`, `a` in that order. -/
def evPermA : Anomaly :=
  { severity := some "high", max_z_score := none, job_name := some "j",
    workflow_name := none,
    anomaly_features :=
      [{ feature := "b", value := 5, expected := 1, z_score := 4 },
       { feature := "a", value := 1, expected := 2, z_score := 3 }] }

/-- An event with the same job and the same feature names as `evPermA` in
the opposite order, with entirely different observed/expected/deviation
values. -/
def evPermB : Anomaly :=
  { severity := some "low", max_z_score := some 1, job_name := some "j",
    workflow_name := none,
    anomaly_features :=
      [{ feature := "a", value := 7, expected := 8, z_score := 9 },
       { feature := "b", value := 2, expected := 3, z_score := 5 }] }

/-- The batch/open-timestamp coupling of the `PendingBatch` data model:
the pending list is empty exactly when no open timestamp is present. -/
def batchInv (s : SmartState) : Prop :=
  s.pending_batch = [] ↔ s.batch_start_time = none

instance (s : SmartState) : Decidable (batchInv s) :=
  decidable_of_iff (s.pending_batch = [] ↔ s.batch_start_time = none) Iff.rfl

/-! ## Shared helper lemmas -/

/-- `List.find?` returns the marked element when everything before it fails
the predicate and it passes. -/
theorem find?_first {α : Type} (p : α → Bool) (pre post : List α) (r : α)
    (hpre : ∀ x ∈ pre, p x = false) (hr : p r = true) :
    List.find? p (pre ++ r :: post) = some r := by
  induction pre with
  | nil => simp [List.find?_cons, hr]
  | cons x xs ih =>
    have hx := hpre x (List.mem_cons_self x xs)
    simp only [List.cons_append, List.find?_cons, hx, cond_false]
    exact ih (fun y hy => hpre y (List.mem_cons_of_mem x hy))

/-- `_add_to_batch` always leaves a nonempty batch with an open timestamp. -/
theorem batchInv_add (s : SmartState) (a : Anomaly) (now : ℚ) :
    batchInv (_add_to_batch s a now) := by
  unfold batchInv _add_to_batch
  cases s.batch_start_time <;> simp

/-- `_flush_batch` on an empty batch is a trivial success with no calls. -/
theorem flush_batch_empty (s : SmartState) (m : AlertManager)
    (chl : List String) (now : ℚ) (tr : String → Bool)
    (h : s.pending_batch = []) :
    _flush_batch s m chl now tr = (true, s, []) := by
  unfold _flush_batch
  rw [h]

/-- The post-state of flushing a nonempty batch: batch cleared, open
timestamp cleared, one timestamp appended, `total_sent` incremented —
independently of the transport outcome. -/
theorem flush_batch_state (s : SmartState) (m : AlertManager)
    (chl : List String) (now : ℚ) (tr : String → Bool)
    (h : s.pending_batch ≠ []) :
    (_flush_batch s m chl now tr).2.1 =
      { s with
        pending_batch := [],
        batch_start_time := none,
        alert_timestamps := s.alert_timestamps ++ [now],
        stats := { s.stats with total_sent := s.stats.total_sent + 1 } } := by
  rcases hp : s.pending_batch with _ | ⟨a, rest⟩
  · exact absurd hp h
  · unfold _flush_batch
    rw [hp]
    rcases rest with _ | ⟨b, rest'⟩
    · rfl
    · rfl

/-- Flushing a single-event batch calls `manager.send_alert` on that event
and reports the truthiness of its per-channel result dict. -/
theorem flush_batch_single (s : SmartState) (m : AlertManager)
    (chl : List String) (now : ℚ) (tr : String → Bool) (a : Anomaly)
    (h : s.pending_batch = [a]) :
    (_flush_batch s m chl now tr).1 = !(m.send_alert (some chl) tr).isEmpty ∧
    (_flush_batch s m chl now tr).2.2 = [NotifierCall.sendOne m a chl] := by
  unfold _flush_batch
  rw [h]
  exact ⟨rfl, rfl⟩

/-- Flushing a multi-event batch makes one `manager.send_batch_alert` call
and reports its boolean result. -/
theorem flush_batch_multi (s : SmartState) (m : AlertManager)
    (chl : List String) (now : ℚ) (tr : String → Bool) (a b : Anomaly)
    (rest : List Anomaly) (h : s.pending_batch = a :: b :: rest) :
    (_flush_batch s m chl now tr).1 = m.send_batch_alert (a :: b :: rest) tr ∧
    (_flush_batch s m chl now tr).2.2 = [NotifierCall.sendBatch m (a :: b :: rest)] := by
  unfold _flush_batch
  rw [h]
  exact ⟨rfl, rfl⟩

/-- `_flush_batch` preserves the batch invariant. -/
theorem batchInv_flush (s : SmartState) (m : AlertManager) (chl : List String)
    (now : ℚ) (tr : String → Bool) (h : batchInv s) :
    batchInv (_flush_batch s m chl now tr).2.1 := by
  by_cases hp : s.pending_batch = []
  · rw [flush_batch_empty s m chl now tr hp]
    exact h
  · rw [flush_batch_state s m chl now tr hp]
    exact ⟨fun _ => rfl, fun _ => rfl⟩

/-- Queue-then-maybe-flush establishes the batch invariant unconditionally. -/
theorem batchInv_queue (s : SmartState) (a : Anomaly) (em : AlertManager)
    (chl : List String) (j sev : String) (now : ℚ) (tr : String → Bool) :
    batchInv (_queue_and_maybe_flush s a em chl j sev now tr).2.1 := by
  simp only [_queue_and_maybe_flush]
  split
  · exact batchInv_flush _ _ _ _ _ (batchInv_add s a now)
  · exact batchInv_add s a now

/-- `send_alert` preserves the batch invariant. -/
theorem send_alert_batchInv (s : SmartState) (a : Anomaly)
    (ch : Option (List String)) (force : Bool) (now : ℚ) (tr : String → Bool)
    (h : batchInv s) : batchInv (send_alert s a ch force now tr).2.1 := by
  cases force with
  | true => exact batchInv_queue _ _ _ _ _ _ _ _
  | false =>
    simp only [send_alert]
    split
    · exact h
    · split
      · exact h
      · split
        · exact h
        · split
          · exact h
          · exact batchInv_queue _ _ _ _ _ _ _ _

/-- `flush_now` preserves the batch invariant. -/
theorem flush_now_batchInv (s : SmartState) (ch : Option (List String))
    (now : ℚ) (tr : String → Bool) (h : batchInv s) :
    batchInv (flush_now s ch now tr).2.1 := by
  unfold flush_now
  cases hb : s.pending_batch with
  | nil => exact h
  | cons a rest => exact batchInv_flush _ _ _ _ _ h

/-! ## Claims -/

/-- C10: `get_stats` is total on every reachable state: its
`total_suppressed` field equals the sum of the four suppression counters,
and `suppression_rate` is that sum divided by `max(total_received, 1)`,
whose denominator is at least 1 (and nonzero as a rational), so it never
divides by zero even before any event has been received. -/
theorem c10_get_stats_safe (s : SmartState) (now : ℚ) :
    (get_stats s now).total_suppressed =
      s.stats.suppressed_duplicate + s.stats.suppressed_maintenance +
      s.stats.suppressed_rate_limit + s.stats.suppressed_severity ∧
    (get_stats s now).suppression_rate =
      ((get_stats s now).total_suppressed : ℚ) /
        ((max s.stats.total_received 1 : Nat) : ℚ) ∧
    1 ≤ max s.stats.total_received 1 ∧
    ((max s.stats.total_received 1 : Nat) : ℚ) ≠ 0 := by
  refine ⟨rfl, rfl, le_max_right _ _, ?_⟩
  exact Nat.cast_ne_zero.mpr (Nat.one_le_iff_ne_zero.mp (le_max_right _ _))

/-- C9: rule resolution returns the first rule in insertion order whose job
pattern case-insensitively substring-matches the job name (a rule with no
pattern matches every job), regardless of later rules; severity is compared
only after selection, against the selected rule's minimum severity rank,
with rank order low < medium < high < critical (matching itself never
consults the severity). -/
theorem c9_first_match_wins (s : SmartState) (job : String)
    (pre post : List AlertRule) (r : AlertRule)
    (hsplit : s.rules = pre ++ r :: post)
    (hpre : ∀ r' ∈ pre, r'.matches_job job = false)
    (hr : r.matches_job job = true) :
    _resolve_rule s job = some r ∧
    (∀ rule : AlertRule, ∀ p j, rule.job_pattern = some p →
      rule.matches_job j = substrMem (pyLower p).data (pyLower j).data) ∧
    (∀ rule : AlertRule, ∀ j, rule.job_pattern = none →
      rule.matches_job j = true) ∧
    (∀ rule : AlertRule, ∀ sev, rule.severity_passes sev =
      decide (SEVERITY_RANK (pyLower rule.min_severity) ≤
              SEVERITY_RANK (pyLower sev))) ∧
    SEVERITY_RANK "low" < SEVERITY_RANK "medium" ∧
    SEVERITY_RANK "medium" < SEVERITY_RANK "high" ∧
    SEVERITY_RANK "high" < SEVERITY_RANK "critical" := by
  refine ⟨?_, ?_, ?_, fun rule sev => rfl, by decide, by decide, by decide⟩
  · unfold _resolve_rule
    rw [hsplit]
    exact find?_first _ pre post r hpre hr
  · intro rule p j hp
    simp [AlertRule.matches_job, hp]
  · intro rule j hp
    simp [AlertRule.matches_job, hp]

/-- Witness for C9: with the beta rule registered before the alpha rule,
resolving job `The-ALPHA-Job` skips the non-matching beta rule and returns
the alpha rule (case-insensitive substring match). -/
theorem c9_first_match_wins_witness :
    _resolve_rule exStateRules "The-ALPHA-Job" = some ruleAlpha := by
  have h := c9_first_match_wins exStateRules "The-ALPHA-Job" [ruleBeta] []
    ruleAlpha rfl
    (by
      intro r' hr'
      have he : r' = ruleBeta := List.mem_singleton.mp hr'
      rw [he]
      decide)
    (by decide)
  exact h.1

/-- C7: the pending batch is empty iff the batch-open timestamp is absent,
and this invariant is preserved by every public operation; the open
timestamp is set to `now` on the first insertion into an empty batch, is
unchanged by subsequent insertions, and both the pending list and the
timestamp are cleared by a flush of a nonempty batch. -/
theorem c7_batch_lifecycle (s : SmartState) (a : Anomaly)
    (ch : Option (List String)) (force : Bool) (now : ℚ) (tr : String → Bool)
    (r : AlertRule) (w : MaintenanceWindow) (nm : String)
    (mgr : AlertManager) (chl : List String)
    (hinv : batchInv s) :
    batchInv (send_alert s a ch force now tr).2.1 ∧
    batchInv (flush_now s ch now tr).2.1 ∧
    batchInv (add_rule s r) ∧
    batchInv (remove_rule s nm) ∧
    batchInv (add_maintenance_window s w) ∧
    batchInv (remove_maintenance_window s nm) ∧
    (s.pending_batch = [] → (_add_to_batch s a now).batch_start_time = some now) ∧
    (s.pending_batch ≠ [] → (_add_to_batch s a now).batch_start_time = s.batch_start_time) ∧
    (s.pending_batch ≠ [] →
      (_flush_batch s mgr chl now tr).2.1.pending_batch = [] ∧
      (_flush_batch s mgr chl now tr).2.1.batch_start_time = none) := by
  refine ⟨send_alert_batchInv s a ch force now tr hinv,
          flush_now_batchInv s ch now tr hinv,
          hinv, hinv, hinv, hinv, ?_, ?_, ?_⟩
  · intro hb
    have hst : s.batch_start_time = none := hinv.mp hb
    simp [_add_to_batch, hst]
  · intro hb
    have hst : s.batch_start_time ≠ none := fun hn => hb (hinv.mpr hn)
    rcases ht : s.batch_start_time with _ | t
    · exact absurd ht hst
    · simp [_add_to_batch, ht]
  · intro hb
    rw [flush_batch_state s mgr chl now tr hb]
    exact ⟨rfl, rfl⟩

/-- Witness for C7: the invariant holds of the freshly constructed state and
is preserved by a concrete admitted submission. -/
theorem c7_batch_lifecycle_witness :
    batchInv exState ∧
    batchInv (send_alert exState evAlpha none false 0 (fun _ => true)).2.1 := by
  refine ⟨by decide, ?_⟩
  exact (c7_batch_lifecycle exState evAlpha none false 0 (fun _ => true)
    ruleAlpha exWindow "x" exManager ["slack"] (by decide)).1

/-- Branch equation: a submission suppressed by the maintenance gate changes
only the received/maintenance counters and makes no notifier call. -/
theorem send_alert_maintenance (s : SmartState) (a : Anomaly)
    (ch : Option (List String)) (now : ℚ) (tr : String → Bool)
    (h1 : _in_maintenance s (_extract_job_name a) now = true) :
    send_alert s a ch false now tr =
      ({ sent := false, reason := some "maintenance_window",
         job_name := _extract_job_name a, severity := _extract_severity a },
       { s with stats :=
          { s.stats with
            total_received := s.stats.total_received + 1,
            suppressed_maintenance := s.stats.suppressed_maintenance + 1 } },
       []) := by
  have h1' : _in_maintenance (_bump_received s) (_extract_job_name a) now = true := h1
  simp only [send_alert, h1']
  rfl

/-- Branch equation: a submission suppressed by the dedup gate changes only
the received/duplicate counters; the rate-limit list is not even pruned. -/
theorem send_alert_duplicate (s : SmartState) (a : Anomaly)
    (ch : Option (List String)) (now : ℚ) (tr : String → Bool)
    (h1 : _in_maintenance s (_extract_job_name a) now = false)
    (h2 : _is_duplicate s (_fingerprint a) now = true) :
    send_alert s a ch false now tr =
      ({ sent := false, reason := some "duplicate",
         job_name := _extract_job_name a, severity := _extract_severity a },
       { s with stats :=
          { s.stats with
            total_received := s.stats.total_received + 1,
            suppressed_duplicate := s.stats.suppressed_duplicate + 1 } },
       []) := by
  have h1' : _in_maintenance (_bump_received s) (_extract_job_name a) now = false := h1
  have h2' : _is_duplicate (_bump_received s) (_fingerprint a) now = true := h2
  simp only [send_alert, h1', h2']
  rfl

/-- Branch equation: a submission suppressed by the rate-limit gate keeps
the pruned timestamp list, records no fingerprint, and changes only the
received/rate-limit counters. -/
theorem send_alert_rate_limited (s : SmartState) (a : Anomaly)
    (ch : Option (List String)) (now : ℚ) (tr : String → Bool)
    (h1 : _in_maintenance s (_extract_job_name a) now = false)
    (h2 : _is_duplicate s (_fingerprint a) now = false)
    (h3 : (_is_rate_limited s now).2 = true) :
    send_alert s a ch false now tr =
      ({ sent := false, reason := some "rate_limit",
         job_name := _extract_job_name a, severity := _extract_severity a },
       { s with
         alert_timestamps :=
           s.alert_timestamps.filter (fun t => decide (now - t < 3600)),
         stats :=
          { s.stats with
            total_received := s.stats.total_received + 1,
            suppressed_rate_limit := s.stats.suppressed_rate_limit + 1 } },
       []) := by
  have h1' : _in_maintenance (_bump_received s) (_extract_job_name a) now = false := h1
  have h2' : _is_duplicate (_bump_received s) (_fingerprint a) now = false := h2
  have h3' : (_is_rate_limited (_bump_received s) now).2 = true := h3
  simp only [send_alert, h1', h2', h3']
  rfl

/-- Branch equation: a submission suppressed by the severity gate (after
rule resolution) keeps the pruned timestamp list, records no fingerprint,
and changes only the received/severity counters. -/
theorem send_alert_below_severity (s : SmartState) (a : Anomaly)
    (ch : Option (List String)) (now : ℚ) (tr : String → Bool) (r : AlertRule)
    (h1 : _in_maintenance s (_extract_job_name a) now = false)
    (h2 : _is_duplicate s (_fingerprint a) now = false)
    (h3 : (_is_rate_limited s now).2 = false)
    (h4 : _resolve_rule s (_extract_job_name a) = some r)
    (h5 : r.severity_passes (_extract_severity a) = false) :
    send_alert s a ch false now tr =
      ({ sent := false, reason := some "below_severity_threshold",
         job_name := _extract_job_name a, severity := _extract_severity a },
       { s with
         alert_timestamps :=
           s.alert_timestamps.filter (fun t => decide (now - t < 3600)),
         stats :=
          { s.stats with
            total_received := s.stats.total_received + 1,
            suppressed_severity := s.stats.suppressed_severity + 1 } },
       []) := by
  have h1' : _in_maintenance (_bump_received s) (_extract_job_name a) now = false := h1
  have h2' : _is_duplicate (_bump_received s) (_fingerprint a) now = false := h2
  have h3' : (_is_rate_limited (_bump_received s) now).2 = false := h3
  have h4' : _resolve_rule (_is_rate_limited (_bump_received s) now).1
      (_extract_job_name a) = some r := h4
  simp only [send_alert, h1', h2', h3', h4', h5, Bool.not_false]
  rfl

/-- Branch equation: a submission that passes every gate records the
fingerprint and proceeds to queue-and-maybe-flush with the rule-resolved
manager and channels. -/
theorem send_alert_admitted (s : SmartState) (a : Anomaly)
    (ch : Option (List String)) (now : ℚ) (tr : String → Bool)
    (h1 : _in_maintenance s (_extract_job_name a) now = false)
    (h2 : _is_duplicate s (_fingerprint a) now = false)
    (h3 : (_is_rate_limited s now).2 = false)
    (h4 : ∀ r, _resolve_rule s (_extract_job_name a) = some r →
      r.severity_passes (_extract_severity a) = true) :
    send_alert s a ch false now tr =
      _queue_and_maybe_flush
        (_record_sent (_is_rate_limited (_bump_received s) now).1 (_fingerprint a) now)
        a
        (_get_effective_manager s (_resolve_rule s (_extract_job_name a)))
        (match ch with
         | some c => c
         | none => match _resolve_rule s (_extract_job_name a) with
           | some r => r.channels
           | none => ["slack"])
        (_extract_job_name a) (_extract_severity a) now tr := by
  have h1' : _in_maintenance (_bump_received s) (_extract_job_name a) now = false := h1
  have h2' : _is_duplicate (_bump_received s) (_fingerprint a) now = false := h2
  have h3' : (_is_rate_limited (_bump_received s) now).2 = false := h3
  cases hrule : _resolve_rule s (_extract_job_name a) with
  | none =>
    have h4' : _resolve_rule (_is_rate_limited (_bump_received s) now).1
        (_extract_job_name a) = none := hrule
    simp only [send_alert, h1', h2', h3', h4']
    rfl
  | some r =>
    have h4' : _resolve_rule (_is_rate_limited (_bump_received s) now).1
        (_extract_job_name a) = some r := hrule
    have h5 : r.severity_passes (_extract_severity a) = true := h4 r hrule
    simp only [send_alert, h1', h2', h3', h4', h5, Bool.not_true]
    rfl

/-- Branch equation: a forced submission skips every gate and proceeds to
queue-and-maybe-flush with the base manager and default channels. -/
theorem send_alert_forced (s : SmartState) (a : Anomaly)
    (ch : Option (List String)) (now : ℚ) (tr : String → Bool) :
    send_alert s a ch true now tr =
      _queue_and_maybe_flush (_bump_received s) a s.alert_manager
        (ch.getD ["slack", "email"])
        (_extract_job_name a) (_extract_severity a) now tr := by
  rfl

/-- C1: for every event submitted with `force=false`, the suppression gates
run in the fixed order maintenance-window, deduplication, rate-limit, then
(after rule routing) severity; the first failing gate short-circuits,
returning `sent=false` with that gate's reason (`maintenance_window`,
`duplicate`, `rate_limit`, `below_severity_threshold`), leaving the batch,
the fingerprint store, and all later-gate state untouched and making no
notifier call. -/
theorem c1_gate_order (s : SmartState) (a : Anomaly)
    (ch : Option (List String)) (now : ℚ) (tr : String → Bool) :
    (_in_maintenance s (_extract_job_name a) now = true →
      send_alert s a ch false now tr =
        ({ sent := false, reason := some "maintenance_window",
           job_name := _extract_job_name a, severity := _extract_severity a },
         { s with stats :=
            { s.stats with
              total_received := s.stats.total_received + 1,
              suppressed_maintenance := s.stats.suppressed_maintenance + 1 } },
         [])) ∧
    (_in_maintenance s (_extract_job_name a) now = false →
     _is_duplicate s (_fingerprint a) now = true →
      send_alert s a ch false now tr =
        ({ sent := false, reason := some "duplicate",
           job_name := _extract_job_name a, severity := _extract_severity a },
         { s with stats :=
            { s.stats with
              total_received := s.stats.total_received + 1,
              suppressed_duplicate := s.stats.suppressed_duplicate + 1 } },
         [])) ∧
    (_in_maintenance s (_extract_job_name a) now = false →
     _is_duplicate s (_fingerprint a) now = false →
     (_is_rate_limited s now).2 = true →
      send_alert s a ch false now tr =
        ({ sent := false, reason := some "rate_limit",
           job_name := _extract_job_name a, severity := _extract_severity a },
         { s with
           alert_timestamps :=
             s.alert_timestamps.filter (fun t => decide (now - t < 3600)),
           stats :=
            { s.stats with
              total_received := s.stats.total_received + 1,
              suppressed_rate_limit := s.stats.suppressed_rate_limit + 1 } },
         [])) ∧
    (∀ r : AlertRule,
     _in_maintenance s (_extract_job_name a) now = false →
     _is_duplicate s (_fingerprint a) now = false →
     (_is_rate_limited s now).2 = false →
     _resolve_rule s (_extract_job_name a) = some r →
     r.severity_passes (_extract_severity a) = false →
      send_alert s a ch false now tr =
        ({ sent := false, reason := some "below_severity_threshold",
           job_name := _extract_job_name a, severity := _extract_severity a },
         { s with
           alert_timestamps :=
             s.alert_timestamps.filter (fun t => decide (now - t < 3600)),
           stats :=
            { s.stats with
              total_received := s.stats.total_received + 1,
              suppressed_severity := s.stats.suppressed_severity + 1 } },
         [])) := by
  exact ⟨send_alert_maintenance s a ch now tr,
         send_alert_duplicate s a ch now tr,
         send_alert_rate_limited s a ch now tr,
         fun r h1 h2 h3 h4 h5 =>
           send_alert_below_severity s a ch now tr r h1 h2 h3 h4 h5⟩

/-- Witness for C1: with an active all-jobs maintenance window, a concrete
submission is suppressed with reason `maintenance_window` and no state
change beyond the two counters. -/
theorem c1_gate_order_witness :
    _in_maintenance exStateMw (_extract_job_name evAlpha) 5 = true ∧
    send_alert exStateMw evAlpha none false 5 (fun _ => true) =
      ({ sent := false, reason := some "maintenance_window",
         job_name := "alpha-job", severity := "high" },
       { exStateMw with stats :=
          { exStateMw.stats with
            total_received := 1, suppressed_maintenance := 1 } },
       []) := by
  refine ⟨by decide, ?_⟩
  have h := (c1_gate_order exStateMw evAlpha none 5 (fun _ => true)).1 (by decide)
  rw [h]
  rfl

/-- Branch equation: queueing with an elapsed batch window flushes. -/
theorem queue_flush_eq (s : SmartState) (a : Anomaly) (em : AlertManager)
    (chl : List String) (j sev : String) (now : ℚ) (tr : String → Bool)
    (h : _should_flush_batch (_add_to_batch s a now) now = true) :
    _queue_and_maybe_flush s a em chl j sev now tr =
      ({ sent := (_flush_batch (_add_to_batch s a now) em chl now tr).1,
         reason := some "batch_flushed", job_name := j, severity := sev },
       (_flush_batch (_add_to_batch s a now) em chl now tr).2.1,
       (_flush_batch (_add_to_batch s a now) em chl now tr).2.2) := by
  simp [_queue_and_maybe_flush, h]

/-- Branch equation: queueing with an unelapsed batch window defers. -/
theorem queue_noflush_eq (s : SmartState) (a : Anomaly) (em : AlertManager)
    (chl : List String) (j sev : String) (now : ℚ) (tr : String → Bool)
    (h : _should_flush_batch (_add_to_batch s a now) now = false) :
    _queue_and_maybe_flush s a em chl j sev now tr =
      ({ sent := false, reason := some "queued_in_batch",
         job_name := j, severity := sev },
       _add_to_batch s a now, []) := by
  simp [_queue_and_maybe_flush, h]

/-- A flush of a nonempty batch makes exactly one notifier call. -/
theorem flush_batch_calls (s : SmartState) (m : AlertManager)
    (chl : List String) (now : ℚ) (tr : String → Bool)
    (h : s.pending_batch ≠ []) :
    (_flush_batch s m chl now tr).2.2.length = 1 := by
  rcases hp : s.pending_batch with _ | ⟨x, rest⟩
  · exact absurd hp h
  · rcases rest with _ | ⟨y, rest'⟩
    · rw [(flush_batch_single s m chl now tr x hp).2]
      rfl
    · rw [(flush_batch_multi s m chl now tr x y rest' hp).2]
      rfl

/-- Counterexample to C4 as stated: on a fresh state with the default
60-second batch window, a `force=true` submission is *not* delivered
immediately — it is queued (`sent=false`, reason `queued_in_batch`) and no
notifier call happens within the submit invocation. -/
theorem c4_force_counterexample :
    (send_alert exState evAlpha none true 0 (fun _ => true)).1.sent = false ∧
    (send_alert exState evAlpha none true 0 (fun _ => true)).1.reason =
      some "queued_in_batch" ∧
    (send_alert exState evAlpha none true 0 (fun _ => true)).2.2 = [] := by
  refine ⟨by with_unfolding_all decide, by with_unfolding_all decide,
    by with_unfolding_all decide⟩

/-- C4 (amended): a `force=true` submission bypasses all four gates (no
suppression counter changes, no fingerprint recorded) and is queued into
the batch with the base manager and channels defaulting to
`['slack','email']`; it is delivered within the same invocation only when
the batch window has already elapsed, in which case exactly one notifier
call is made. -/
theorem c4_force_amended (s : SmartState) (a : Anomaly)
    (ch : Option (List String)) (now : ℚ) (tr : String → Bool) :
    (send_alert s a ch true now tr).2.1.stats.suppressed_duplicate =
      s.stats.suppressed_duplicate ∧
    (send_alert s a ch true now tr).2.1.stats.suppressed_maintenance =
      s.stats.suppressed_maintenance ∧
    (send_alert s a ch true now tr).2.1.stats.suppressed_rate_limit =
      s.stats.suppressed_rate_limit ∧
    (send_alert s a ch true now tr).2.1.stats.suppressed_severity =
      s.stats.suppressed_severity ∧
    (send_alert s a ch true now tr).2.1.sent_fingerprints =
      s.sent_fingerprints ∧
    (send_alert s a ch true now tr).2.1.stats.batched = s.stats.batched + 1 ∧
    (_should_flush_batch (_add_to_batch (_bump_received s) a now) now = false →
      (send_alert s a ch true now tr).1.sent = false ∧
      (send_alert s a ch true now tr).1.reason = some "queued_in_batch" ∧
      (send_alert s a ch true now tr).2.2 = [] ∧
      (send_alert s a ch true now tr).2.1.pending_batch =
        s.pending_batch ++ [a]) ∧
    (_should_flush_batch (_add_to_batch (_bump_received s) a now) now = true →
      (send_alert s a ch true now tr).1.reason = some "batch_flushed" ∧
      (send_alert s a ch true now tr).2.2.length = 1) ∧
    (s.pending_batch = [] →
     _should_flush_batch (_add_to_batch (_bump_received s) a now) now = true →
      (send_alert s a ch true now tr).2.2 =
        [NotifierCall.sendOne s.alert_manager a (ch.getD ["slack", "email"])]) := by
  cases hB : _should_flush_batch (_add_to_batch (_bump_received s) a now) now with
  | true =>
    rw [send_alert_forced s a ch now tr,
        queue_flush_eq (_bump_received s) a s.alert_manager
          (ch.getD ["slack", "email"]) (_extract_job_name a)
          (_extract_severity a) now tr hB]
    have hne : (_add_to_batch (_bump_received s) a now).pending_batch ≠ [] := by
      simp [_add_to_batch]
    dsimp only
    rw [flush_batch_state _ _ _ _ _ hne]
    refine ⟨rfl, rfl, rfl, rfl, rfl, rfl, ?_, ?_, ?_⟩
    · intro h
      exact absurd h (by decide)
    · intro _
      exact ⟨rfl, flush_batch_calls _ _ _ _ _ hne⟩
    · intro hp _
      have hadd : (_add_to_batch (_bump_received s) a now).pending_batch = [a] := by
        simp [_add_to_batch, _bump_received, hp]
      exact (flush_batch_single _ _ _ _ _ a hadd).2
  | false =>
    rw [send_alert_forced s a ch now tr,
        queue_noflush_eq (_bump_received s) a s.alert_manager
          (ch.getD ["slack", "email"]) (_extract_job_name a)
          (_extract_severity a) now tr hB]
    dsimp only
    refine ⟨rfl, rfl, rfl, rfl, rfl, rfl, ?_, ?_, ?_⟩
    · intro _
      exact ⟨rfl, rfl, rfl, rfl⟩
    · intro h
      exact absurd h (by decide)
    · intro _ h
      exact absurd h (by decide)

/-- Witness for the amended C4: with a zero-length batch window a forced
submission flushes in the same invocation, making exactly the one
`send_alert` notifier call on the base manager with the default
`['slack','email']` channels. -/
theorem c4_force_amended_witness :
    _should_flush_batch (_add_to_batch (_bump_received exStateW0) evAlpha 0) 0 = true ∧
    (send_alert exStateW0 evAlpha none true 0 (fun _ => true)).2.2 =
      [NotifierCall.sendOne exManager evAlpha ["slack", "email"]] := by
  refine ⟨by with_unfolding_all decide, ?_⟩
  exact (c4_force_amended exStateW0 evAlpha none 0
    (fun _ => true)).2.2.2.2.2.2.2.2 rfl (by with_unfolding_all decide)

/-- A queued (not flushed) outcome leaves exactly the batched state. -/
theorem queue_state (s : SmartState) (a : Anomaly) (em : AlertManager)
    (chl : List String) (j sev : String) (now : ℚ) (tr : String → Bool)
    (h : (_queue_and_maybe_flush s a em chl j sev now tr).1.reason =
      some "queued_in_batch") :
    (_queue_and_maybe_flush s a em chl j sev now tr).2.1 =
      _add_to_batch s a now := by
  cases hf : _should_flush_batch (_add_to_batch s a now) now with
  | true =>
    rw [queue_flush_eq s a em chl j sev now tr hf] at h
    simp at h
  | false =>
    rw [queue_noflush_eq s a em chl j sev now tr hf]

/-- Counterexample to C2 as stated: flushing a two-event batch whose
delivery fails (every transport returns failure, so the flush reports
`false`) still appends the rate-limit timestamp and still increments the
sent counter. -/
theorem c2_failed_delivery_counterexample :
    (flush_now exStateP2 none 1 (fun _ => false)).1 = false ∧
    (flush_now exStateP2 none 1 (fun _ => false)).2.1.alert_timestamps = [1] ∧
    (flush_now exStateP2 none 1 (fun _ => false)).2.1.stats.total_sent = 1 := by
  refine ⟨by with_unfolding_all decide, by with_unfolding_all decide,
    by with_unfolding_all decide⟩

/-- C2 (amended): every flush of a nonempty pending batch appends exactly
one timestamp to the rate-limit window and increments the sent counter
exactly once — regardless of the delivery outcome, which is only reported
afterwards — and never on admission: a submission whose outcome is
`queued_in_batch` appends no timestamp (the list can only shrink by
pruning) and leaves the sent counter unchanged. -/
theorem c2_flush_accounting (s : SmartState) (m : AlertManager)
    (chl : List String) (a : Anomaly) (ch : Option (List String))
    (force : Bool) (now : ℚ) (tr : String → Bool) :
    (s.pending_batch ≠ [] →
      (_flush_batch s m chl now tr).2.1.alert_timestamps =
        s.alert_timestamps ++ [now] ∧
      (_flush_batch s m chl now tr).2.1.stats.total_sent =
        s.stats.total_sent + 1) ∧
    (s.pending_batch = [] → _flush_batch s m chl now tr = (true, s, [])) ∧
    ((send_alert s a ch force now tr).1.reason = some "queued_in_batch" →
      (send_alert s a ch force now tr).2.1.alert_timestamps.Sublist
        s.alert_timestamps ∧
      (send_alert s a ch force now tr).2.1.stats.total_sent =
        s.stats.total_sent) := by
  refine ⟨?_, flush_batch_empty s m chl now tr, ?_⟩
  · intro h
    rw [flush_batch_state s m chl now tr h]
    exact ⟨rfl, rfl⟩
  · intro h
    cases force with
    | true =>
      have h' : (_queue_and_maybe_flush (_bump_received s) a s.alert_manager
          (ch.getD ["slack", "email"]) (_extract_job_name a)
          (_extract_severity a) now tr).1.reason = some "queued_in_batch" := by
        rw [← send_alert_forced s a ch now tr]
        exact h
      have hq := queue_state _ a _ _ _ _ now tr h'
      constructor
      · rw [send_alert_forced s a ch now tr, hq]
        exact List.Sublist.refl _
      · rw [send_alert_forced s a ch now tr, hq]
        rfl
    | false =>
      cases h1 : _in_maintenance s (_extract_job_name a) now with
      | true =>
        rw [send_alert_maintenance s a ch now tr h1] at h
        simp at h
      | false =>
        cases h2 : _is_duplicate s (_fingerprint a) now with
        | true =>
          rw [send_alert_duplicate s a ch now tr h1 h2] at h
          simp at h
        | false =>
          cases h3 : (_is_rate_limited s now).2 with
          | true =>
            rw [send_alert_rate_limited s a ch now tr h1 h2 h3] at h
            simp at h
          | false =>
            by_cases h5 : ∀ r, _resolve_rule s (_extract_job_name a) = some r →
                r.severity_passes (_extract_severity a) = true
            · have he := send_alert_admitted s a ch now tr h1 h2 h3 h5
              rw [he] at h ⊢
              have hq := queue_state _ a _ _ _ _ now tr h
              rw [hq]
              constructor
              · exact List.filter_sublist _
              · rfl
            · push_neg at h5
              obtain ⟨r, hr, hp⟩ := h5
              have hp' : r.severity_passes (_extract_severity a) = false := by
                cases hx : r.severity_passes (_extract_severity a)
                · rfl
                · exact absurd hx hp
              rw [send_alert_below_severity s a ch now tr r h1 h2 h3 hr hp'] at h
              simp at h

/-- Witness for the amended C2: a concrete failed-delivery flush appends
`[1]` to the empty rate-limit window, and a concrete queued submission
appends nothing. -/
theorem c2_flush_accounting_witness :
    exStateP2.pending_batch ≠ [] ∧
    (_flush_batch exStateP2 exManager ["slack"] 1 (fun _ => false)).2.1.alert_timestamps = [1] ∧
    (send_alert exState evAlpha none false 0 (fun _ => true)).1.reason =
      some "queued_in_batch" ∧
    (send_alert exState evAlpha none false 0 (fun _ => true)).2.1.alert_timestamps.Sublist
      exState.alert_timestamps := by
  have h1 := (c2_flush_accounting exStateP2 exManager ["slack"] evAlpha none
    false 1 (fun _ => false)).1 (by decide)
  have h3 := (c2_flush_accounting exState exManager ["slack"] evAlpha none
    false 0 (fun _ => true)).2.2 (by with_unfolding_all decide)
  refine ⟨by decide, ?_, by with_unfolding_all decide, h3.1⟩
  rw [h1.1]
  rfl

/-- Counterexample to C3 as stated: with a one-event pending batch and every
transport failing, the notifier's per-channel result dict is
`{'slack': False}` — an all-channels-failed delivery — yet `flush_now`
reports `true` to the caller, not a failed-delivery outcome. -/
theorem c3_false_success_counterexample :
    exManager.send_alert (some ["slack"]) (fun _ => false) = [("slack", false)] ∧
    (flush_now exStateP1 none 1 (fun _ => false)).1 = true := by
  refine ⟨by with_unfolding_all decide, by with_unfolding_all decide⟩

/-- C3 (amended): flushes never raise for transport failures (the embedded
transports return booleans; exceptions are caught inside the channel
senders of `alerting.py` and converted to `False`); the batch/rate-limit
state transition of a flush is identical for every transport outcome —
nothing is rolled back — but the result reported for a single-event flush
is merely the nonemptiness of the per-channel result dict, not delivery
success. -/
theorem c3_transport_failure_no_rollback (s : SmartState) (m : AlertManager)
    (chl : List String) (now : ℚ) (tr tr' : String → Bool)
    (h : s.pending_batch ≠ []) :
    (_flush_batch s m chl now tr).2.1 =
      { s with
        pending_batch := [],
        batch_start_time := none,
        alert_timestamps := s.alert_timestamps ++ [now],
        stats := { s.stats with total_sent := s.stats.total_sent + 1 } } ∧
    (_flush_batch s m chl now tr).2.1 = (_flush_batch s m chl now tr').2.1 ∧
    (∀ a, s.pending_batch = [a] →
      (_flush_batch s m chl now tr).1 =
        !(m.send_alert (some chl) tr).isEmpty) := by
  refine ⟨flush_batch_state s m chl now tr h, ?_, ?_⟩
  · rw [flush_batch_state s m chl now tr h, flush_batch_state s m chl now tr' h]
  · intro a ha
    exact (flush_batch_single s m chl now tr a ha).1

/-- Witness for the amended C3: on a concrete one-event batch the post-flush
state is the same whether every transport fails or every transport
succeeds. -/
theorem c3_transport_failure_no_rollback_witness :
    exStateP1.pending_batch ≠ [] ∧
    (_flush_batch exStateP1 exManager ["slack"] 1 (fun _ => false)).2.1 =
      (_flush_batch exStateP1 exManager ["slack"] 1 (fun _ => true)).2.1 := by
  refine ⟨by decide, ?_⟩
  exact (c3_transport_failure_no_rollback exStateP1 exManager ["slack"] 1
    (fun _ => false) (fun _ => true) (by decide)).2.1

/-- Queueing (with or without a flush) never touches the fingerprint store. -/
theorem queue_fingerprints (s : SmartState) (a : Anomaly) (em : AlertManager)
    (chl : List String) (j sev : String) (now : ℚ) (tr : String → Bool) :
    (_queue_and_maybe_flush s a em chl j sev now tr).2.1.sent_fingerprints =
      s.sent_fingerprints := by
  cases hf : _should_flush_batch (_add_to_batch s a now) now with
  | true =>
    rw [queue_flush_eq s a em chl j sev now tr hf]
    have hne : (_add_to_batch s a now).pending_batch ≠ [] := by
      simp [_add_to_batch]
    rw [flush_batch_state _ _ _ _ _ hne]
    rfl
  | false =>
    rw [queue_noflush_eq s a em chl j sev now tr hf]
    rfl

/-- After `dict[k] = v` followed by pruning with cutoff `v - w` (for a
positive window `w`), looking up `k` yields exactly `v`. -/
theorem dictGet_set_filter (d : List (String × ℚ)) (k : String) (v w : ℚ)
    (hw : 0 < w) :
    dictGet ((dictSet d k v).filter
      (fun kv => decide (v - w < kv.2))) k = some v := by
  have hmem : (k, v) ∈ dictSet d k v := by
    unfold dictSet
    by_cases hc : d.any (fun kv => kv.1 = k) = true
    · rw [if_pos hc]
      obtain ⟨y, hy, hyk⟩ := List.any_eq_true.mp hc
      refine List.mem_map.mpr ⟨y, hy, ?_⟩
      rw [if_pos (of_decide_eq_true hyk)]
    · rw [if_neg hc]
      exact List.mem_append.mpr (Or.inr (List.mem_singleton.mpr rfl))
  have huniq : ∀ kv ∈ dictSet d k v, kv.1 = k → kv.2 = v := by
    intro kv hkv hk1
    unfold dictSet at hkv
    by_cases hc : d.any (fun kv => kv.1 = k) = true
    · rw [if_pos hc] at hkv
      obtain ⟨y, hy, hmap⟩ := List.mem_map.mp hkv
      by_cases hyk : y.1 = k
      · rw [if_pos hyk] at hmap
        rw [← hmap]
      · rw [if_neg hyk] at hmap
        rw [← hmap] at hk1
        exact absurd hk1 hyk
    · rw [if_neg hc] at hkv
      rcases List.mem_append.mp hkv with hin | hone
      · exfalso
        apply hc
        exact List.any_eq_true.mpr ⟨kv, hin, by simp [hk1]⟩
      · rw [List.mem_singleton.mp hone]
  have hkeep : decide (v - w < (k, v).2) = true := by
    simp only [decide_eq_true_eq]
    linarith
  have hmemf : (k, v) ∈ (dictSet d k v).filter
      (fun kv => decide (v - w < kv.2)) :=
    List.mem_filter.mpr ⟨hmem, hkeep⟩
  unfold dictGet
  cases hf : List.find? (fun kv => kv.1 = k)
      ((dictSet d k v).filter (fun kv => decide (v - w < kv.2))) with
  | none =>
    exfalso
    have := List.find?_eq_none.mp hf (k, v) hmemf
    simp at this
  | some x =>
    have hx1 : x ∈ (dictSet d k v).filter (fun kv => decide (v - w < kv.2)) :=
      List.mem_of_find?_eq_some hf
    have hx2 := List.find?_some hf
    have hxk : x.1 = k := by simpa using hx2
    have hxv : x.2 = v := huniq x (List.mem_filter.mp hx1).1 hxk
    simp [hxv]

/-- Counterexample to C6 as stated: a concrete event passes the dedup gate
(no stored record for its fingerprint), is then suppressed by the
rate-limit gate, and its send time is *not* recorded — the fingerprint
store stays empty. -/
theorem c6_not_recorded_counterexample :
    _is_duplicate exStateRL (_fingerprint evAlpha) 0 = false ∧
    (send_alert exStateRL evAlpha none false 0 (fun _ => true)).1.reason =
      some "rate_limit" ∧
    (send_alert exStateRL evAlpha none false 0 (fun _ => true)).2.1.sent_fingerprints
      = [] := by
  refine ⟨by with_unfolding_all decide, by with_unfolding_all decide,
    by with_unfolding_all decide⟩

/-- C6 (amended): the send time for a fingerprint is recorded only after the
event passes *all* gates (maintenance, dedup, rate limit, severity), at the
point just before batching — it is then recorded even when delivery is
deferred into the batch — and when a later gate (rate limit or severity)
suppresses the event, nothing is recorded. -/
theorem c6_record_after_gates (s : SmartState) (a : Anomaly)
    (ch : Option (List String)) (now : ℚ) (tr : String → Bool) :
    (_in_maintenance s (_extract_job_name a) now = false →
     _is_duplicate s (_fingerprint a) now = false →
     (_is_rate_limited s now).2 = false →
     (∀ r, _resolve_rule s (_extract_job_name a) = some r →
       r.severity_passes (_extract_severity a) = true) →
     (send_alert s a ch false now tr).2.1.sent_fingerprints =
       (dictSet s.sent_fingerprints (_fingerprint a) now).filter
         (fun kv => decide (now - s.dedup_window_seconds < kv.2)) ∧
     (0 < s.dedup_window_seconds →
       dictGet (send_alert s a ch false now tr).2.1.sent_fingerprints
         (_fingerprint a) = some now)) ∧
    (_in_maintenance s (_extract_job_name a) now = false →
     _is_duplicate s (_fingerprint a) now = false →
     (_is_rate_limited s now).2 = true →
     (send_alert s a ch false now tr).2.1.sent_fingerprints =
       s.sent_fingerprints) ∧
    (∀ r : AlertRule,
     _in_maintenance s (_extract_job_name a) now = false →
     _is_duplicate s (_fingerprint a) now = false →
     (_is_rate_limited s now).2 = false →
     _resolve_rule s (_extract_job_name a) = some r →
     r.severity_passes (_extract_severity a) = false →
     (send_alert s a ch false now tr).2.1.sent_fingerprints =
       s.sent_fingerprints) := by
  refine ⟨?_, ?_, ?_⟩
  · intro h1 h2 h3 h4
    have heq : (send_alert s a ch false now tr).2.1.sent_fingerprints =
        (dictSet s.sent_fingerprints (_fingerprint a) now).filter
          (fun kv => decide (now - s.dedup_window_seconds < kv.2)) := by
      rw [send_alert_admitted s a ch now tr h1 h2 h3 h4]
      rw [queue_fingerprints]
      rfl
    refine ⟨heq, ?_⟩
    intro hw
    rw [heq]
    exact dictGet_set_filter s.sent_fingerprints (_fingerprint a) now
      s.dedup_window_seconds hw
  · intro h1 h2 h3
    rw [send_alert_rate_limited s a ch now tr h1 h2 h3]
  · intro r h1 h2 h3 h4 h5
    rw [send_alert_below_severity s a ch now tr r h1 h2 h3 h4 h5]

/-- Witness for the amended C6: on a fresh state a concrete admitted (and
merely queued) submission has its fingerprint recorded with the submission
time. -/
theorem c6_record_after_gates_witness :
    0 < exState.dedup_window_seconds ∧
    (send_alert exState evAlpha none false 0 (fun _ => true)).1.reason =
      some "queued_in_batch" ∧
    dictGet (send_alert exState evAlpha none false 0 (fun _ => true)).2.1.sent_fingerprints
      (_fingerprint evAlpha) = some 0 := by
  have h := (c6_record_after_gates exState evAlpha none 0 (fun _ => true)).1
    (by with_unfolding_all decide) (by with_unfolding_all decide)
    (by with_unfolding_all decide)
    (fun r hr => by simp [_resolve_rule, exState] at hr)
  exact ⟨by decide, by with_unfolding_all decide, h.2 (by decide)⟩

/-- A flush of a nonempty batch makes its one call on exactly the manager it
was handed. -/
theorem flush_batch_manager (s : SmartState) (m : AlertManager)
    (chl : List String) (now : ℚ) (tr : String → Bool)
    (h : s.pending_batch ≠ []) :
    (_flush_batch s m chl now tr).2.2.map callManager = [m] := by
  rcases hp : s.pending_batch with _ | ⟨x, rest⟩
  · exact absurd hp h
  · rcases rest with _ | ⟨y, rest'⟩
    · rw [(flush_batch_single s m chl now tr x hp).2]
      rfl
    · rw [(flush_batch_multi s m chl now tr x y rest' hp).2]
      rfl

/-- Branch equation: `flush_now` on a nonempty batch resolves rule, manager
and channels from the first pending event. -/
theorem flush_now_cons (s : SmartState) (ch : Option (List String)) (now : ℚ)
    (tr : String → Bool) (x : Anomaly) (rest : List Anomaly)
    (hp : s.pending_batch = x :: rest) :
    flush_now s ch now tr =
      _flush_batch s
        (_get_effective_manager s (_resolve_rule s (_extract_job_name x)))
        (match ch with
         | some c => c
         | none => match _resolve_rule s (_extract_job_name x) with
           | some r => r.channels
           | none => ["slack"]) now tr := by
  unfold flush_now
  rw [hp]

set_option maxRecDepth 8000 in
/-- Counterexample to C8 as stated: the open batch's first (and only) event
is the `alpha-job` one, whose rule routes to the `hook-alpha` webhook; yet
when submitting a `beta-job` event triggers the time-window flush inside
`send_alert`, the batch is delivered on the manager resolved from the
*submitted* event — the `hook-beta` override — not from the first event
ever added. -/
theorem c8_mixed_batch_counterexample :
    _resolve_rule exStateC8 (_extract_job_name evAlpha) = some ruleAlpha ∧
    _get_effective_manager exStateC8 (some ruleAlpha) =
      { config := [("slack_webhook_url", "hook-alpha")] } ∧
    (send_alert exStateC8 evBeta none false 100 (fun _ => true)).1.reason =
      some "batch_flushed" ∧
    (send_alert exStateC8 evBeta none false 100 (fun _ => true)).2.2 =
      [NotifierCall.sendBatch { config := [("slack_webhook_url", "hook-beta")] }
        [evAlpha, evBeta]] := by
  refine ⟨by decide, by decide, by with_unfolding_all decide,
    by with_unfolding_all decide⟩

/-- C8 (amended): an explicit `flush_now` resolves the effective rule,
manager and channels from the first pending event, and its one notifier
call is made on that manager; but the time-window flush inside `send_alert`
uses the rule and manager resolved from the event being submitted (the most
recently added one), not from the first event of the batch. -/
theorem c8_flush_rule_resolution (s : SmartState) (ch : Option (List String))
    (a : Anomaly) (now : ℚ) (tr : String → Bool) :
    (∀ x rest, s.pending_batch = x :: rest →
      flush_now s ch now tr =
        _flush_batch s
          (_get_effective_manager s (_resolve_rule s (_extract_job_name x)))
          (match ch with
           | some c => c
           | none => match _resolve_rule s (_extract_job_name x) with
             | some r => r.channels
             | none => ["slack"]) now tr ∧
      (flush_now s ch now tr).2.2.map callManager =
        [_get_effective_manager s (_resolve_rule s (_extract_job_name x))]) ∧
    (_in_maintenance s (_extract_job_name a) now = false →
     _is_duplicate s (_fingerprint a) now = false →
     (_is_rate_limited s now).2 = false →
     (∀ r, _resolve_rule s (_extract_job_name a) = some r →
       r.severity_passes (_extract_severity a) = true) →
     (send_alert s a ch false now tr).1.reason = some "batch_flushed" →
      (send_alert s a ch false now tr).2.2.map callManager =
        [_get_effective_manager s (_resolve_rule s (_extract_job_name a))]) := by
  constructor
  · intro x rest hp
    have he := flush_now_cons s ch now tr x rest hp
    refine ⟨he, ?_⟩
    rw [he]
    exact flush_batch_manager _ _ _ _ _ (by rw [hp]; simp)
  · intro h1 h2 h3 h4 hflush
    rw [send_alert_admitted s a ch now tr h1 h2 h3 h4] at hflush ⊢
    cases hf : _should_flush_batch
        (_add_to_batch (_record_sent (_is_rate_limited (_bump_received s) now).1
          (_fingerprint a) now) a now) now with
    | false =>
      rw [queue_noflush_eq _ _ _ _ _ _ _ _ hf] at hflush
      simp at hflush
    | true =>
      rw [queue_flush_eq _ _ _ _ _ _ _ _ hf]
      exact flush_batch_manager _ _ _ _ _ (by simp [_add_to_batch])

/-- Witness for the amended C8: `flush_now` on the one-event `alpha-job`
batch delivers on the manager with the `hook-alpha` override resolved from
that first event. -/
theorem c8_flush_rule_resolution_witness :
    exStateC8.pending_batch = evAlpha :: [] ∧
    (flush_now exStateC8 none 1 (fun _ => true)).2.2.map callManager =
      [{ config := [("slack_webhook_url", "hook-alpha")] }] := by
  refine ⟨rfl, ?_⟩
  have h := ((c8_flush_rule_resolution exStateC8 none evAlpha 1
    (fun _ => true)).1 evAlpha [] rfl).2
  rw [h]
  decide

/-- Sorting strings is invariant under permutation of the input. -/
theorem insertionSort_eq_of_perm {l1 l2 : List String} (h : l1.Perm l2) :
    List.insertionSort (fun a b => a ≤ b) l1 =
      List.insertionSort (fun a b => a ≤ b) l2 :=
  List.eq_of_perm_of_sorted
    (((List.perm_insertionSort _ l1).trans h).trans
      (List.perm_insertionSort _ l2).symm)
    (List.sorted_insertionSort _ l1) (List.sorted_insertionSort _ l2)

set_option maxRecDepth 200000 in
/-- Counterexample to C5 as stated: two events with the same job and the
same *set* of anomalous feature names (the sorted feature-name list is not
de-duplicated) produce different fingerprints when a name repeats:
`md5("j|a") ≠ md5("j|a|a")`. -/
theorem c5_duplicate_names_counterexample :
    _extract_job_name evDupA = _extract_job_name evDupB ∧
    (featureNames evDupA).toFinset = (featureNames evDupB).toFinset ∧
    _fingerprint evDupA ≠ _fingerprint evDupB := by
  refine ⟨rfl, by decide, by with_unfolding_all decide⟩

/-- C5 (amended): for every two events with the same job identifier whose
anomalous feature-name lists are permutations of each other (the same names
with multiplicity, in any order), the fingerprint is the same string,
independent of the features' observed/expected/deviation values; the
fingerprint is a pure function of the event (MD5 of a deterministic string),
hence deterministic across process restarts. -/
theorem c5_fingerprint_multiset (e1 e2 : Anomaly)
    (hjob : _extract_job_name e1 = _extract_job_name e2)
    (hperm : (featureNames e1).Perm (featureNames e2)) :
    _fingerprint e1 = _fingerprint e2 := by
  unfold _fingerprint
  rw [hjob, insertionSort_eq_of_perm hperm]

/-- Witness for the amended C5: two events with reordered feature names and
completely different values share a fingerprint. -/
theorem c5_fingerprint_multiset_witness :
    _extract_job_name evPermA = _extract_job_name evPermB ∧
    (featureNames evPermA).Perm (featureNames evPermB) ∧
    _fingerprint evPermA = _fingerprint evPermB := by
  refine ⟨rfl, by decide, ?_⟩
  exact c5_fingerprint_multiset evPermA evPermB rfl (by decide)
